import Mathlib

/-!
Verification development for the OBS event-playback repository
(`modules/video_library.py`, `modules/obs_controller.py`, `modules/utils.py`,
`modules/models.py`, `main.py`).

The Python source is shallowly embedded: pure helpers become Lean functions,
the mutable controller/library objects become explicit state records, the OBS
WebSocket is an oracle record of responses, `random.shuffle` is a shuffle
function supplied per refill, and exceptions become explicit error results.

Numbers: every time quantity in the program is a decimal with at most six
fractional digits (`HH:MM:SS.ffffff` timestamps, millisecond counters, the
fixed `0.2`-second grace), and the program only adds, subtracts, scales and
compares them; they are therefore embedded exactly as integer microsecond
counts (`Int`).  A value of `x` microseconds stands for the Python float
`x / 10^6` seconds; `5.2` seconds is `5200000`.  The volume multiplier is
never computed with (only stored and forwarded), and is embedded in integer
milli-units: Python `0.8` is `800`, the default `1.0` is `1000`.
-/

namespace ObsEvents

/-- Value of `TimeConverter.to_seconds` / of the `start_time`/`end_time`
fields of `VideoSegment` (`models.py`): either one of the sentinel strings
(`"full"`/`"end"`) passed through unchanged, or a number of seconds given
in integer microseconds (`sec m` is `m / 10^6` seconds). -/
inductive TVal where
  | str (s : String)
  | sec (micro : Int)
deriving DecidableEq, Repr

/-- Split a character list on every occurrence of `c` (the semantics of
`str.split(sep)` for a one-character separator). -/
def splitOnChar (c : Char) : List Char → List (List Char)
  | [] => [[]]
  | x :: xs =>
    if x = c then [] :: splitOnChar c xs
    else
      match splitOnChar c xs with
      | r :: rs => (x :: r) :: rs
      | [] => [[x]]

/-- All characters are decimal digits and the list is nonempty (what
`datetime.strptime`'s numeric directives accept, lengths checked separately). -/
def allDigits (cs : List Char) : Bool :=
  !cs.isEmpty && cs.all (fun c => 48 ≤ c.toNat && c.toNat ≤ 57)

/-- Numeric value of a list of decimal digits. -/
def digitsToNat (cs : List Char) : Nat :=
  cs.foldl (fun a c => a * 10 + (c.toNat - 48)) 0

/-- Parse `"%H:%M:%S"` as in `datetime.strptime`: one or two digits per field,
hour in 0..23, minute and second in 0..59. Returns `(hour, minute, second)`. -/
def parseHMS (t : List Char) : Option (Nat × Nat × Nat) :=
  match splitOnChar ':' t with
  | [h, m, s] =>
    if allDigits h && h.length ≤ 2 && allDigits m && m.length ≤ 2 &&
       allDigits s && s.length ≤ 2 then
      let hv := digitsToNat h
      let mv := digitsToNat m
      let sv := digitsToNat s
      if hv ≤ 23 && mv ≤ 59 && sv ≤ 59 then some (hv, mv, sv) else none
    else none
  | _ => none

/-- Parse `"%H:%M:%S.%f"`: like `parseHMS` with a fractional part of one to
six digits, right-padded to microseconds. Returns `(h, m, s, microsecond)`. -/
def parseHMSf (t : List Char) : Option (Nat × Nat × Nat × Nat) :=
  match splitOnChar '.' t with
  | [hms, f] =>
    match parseHMS hms with
    | some (hv, mv, sv) =>
      if allDigits f && f.length ≤ 6 then
        some (hv, mv, sv, digitsToNat f * 10 ^ (6 - f.length))
      else none
    | none => none
  | _ => none

/-- `TimeConverter.to_seconds` (`utils.py` lines 13-23): sentinels pass
through; otherwise try `"%H:%M:%S.%f"`, then fall back to `"%H:%M:%S"`;
`none` models the `ValueError` both formats raise on malformed input.
The result is in integer microseconds. -/
def to_seconds (time_str : String) : Option TVal :=
  if time_str = "full" ∨ time_str = "end" then some (.str time_str)
  else
    match parseHMSf time_str.data with
    | some (h, m, s, micro) =>
      some (.sec ((h : Int) * 3600000000 + m * 60000000 + s * 1000000 + micro))
    | none =>
      match parseHMS time_str.data with
      | some (h, m, s) =>
        some (.sec ((h : Int) * 3600000000 + m * 60000000 + s * 1000000))
      | none => none

/-! ## VideoLibrary (`modules/video_library.py`) -/

/-- One `{start_time, end_time}` object of a tag's segment list. -/
structure SegSpec where
  start_time : String
  end_time : String
deriving DecidableEq, Repr

/-- One entry of the catalog's `videos` list.  `volume_multiplier` is in
milli-units (`none` = key absent, read with default `1000` = Python `1.0`);
`tags` is the insertion-ordered dict `tagName -> segment list`. -/
structure CatalogVideo where
  file_name : String
  volume_multiplier : Option Int
  tags : List (String × List SegSpec)
deriving DecidableEq, Repr

/-- A `(video, segment)` pair as stored in `_tag_cache` and the shuffle
pools. -/
abbrev Pair := CatalogVideo × SegSpec

/-- `_build_tag_cache` (`video_library.py` lines 59-72), read at one tag:
all `(video, seg)` pairs of that tag, in catalog order.  A tag absent from
the dict and a tag present with an empty list both give `[]`, exactly the
two cases `get_random_segment_by_tag` rejects. -/
def tag_cache (videos : List CatalogVideo) (tag : String) : List Pair :=
  videos.flatMap (fun v =>
    (v.tags.filter (fun p => p.1 == tag)).flatMap (fun p =>
      p.2.map (fun s => (v, s))))

/-- The `_shuffle_pools` dict: `none` = key absent. -/
abbrev Pools := String → Option (List Pair)

/-- Filesystem context of the library: the resolved raw/clips directories
(taken already absolute and normalized) and the `os.path.exists` oracle. -/
structure LibEnv where
  raw_dir : String
  clips_dir : String
  clip_exists : String → Bool

/-- `os.path.join` of a directory and a relative file name. -/
def joinPath (dir file : String) : String := dir ++ "/" ++ file

/-- `str.replace(":", "-")`. -/
def replaceColons (s : String) : String :=
  ⟨s.data.map (fun c => if c = ':' then '-' else c)⟩

/-- `os.path.basename`: the suffix after the last path separator. -/
def basenameChars (cs : List Char) : List Char :=
  cs.foldl (fun acc c => if c = '/' ∨ c = '\\' then [] else acc ++ [c]) []

/-- Index of the last `'.'` that `os.path.splitext` splits at: it must have
some non-dot character before it. -/
def lastValidDot (cs : List Char) : Option Nat :=
  (List.range cs.length).foldl
    (fun acc i =>
      if cs.getD i ' ' = '.' ∧ (cs.take i).any (fun c => c != '.') then
        some i
      else acc)
    none

/-- `os.path.splitext(os.path.basename(file_name))[0]` — the clip-name stem. -/
def stemOf (file_name : String) : String :=
  let base := basenameChars file_name.data
  match lastValidDot base with
  | some i => ⟨base.take i⟩
  | none => ⟨base⟩

/-- The pre-rendered clip file name
`{stem}_{start : -> -}_{end : -> - or "end"}.mkv`
(`video_library.py` lines 103-106). -/
def clipped_filename (v : CatalogVideo) (seg : SegSpec) : String :=
  let file_root := stemOf v.file_name
  let safe_start := replaceColons seg.start_time
  let safe_end :=
    if seg.end_time = "full" ∨ seg.end_time = "end" then "end"
    else replaceColons seg.end_time
  file_root ++ "_" ++ safe_start ++ "_" ++ safe_end ++ ".mkv"

/-- `VideoSegment` (`models.py`): resolved file path, trim bounds, volume
multiplier in milli-units. -/
structure VideoSegment where
  file_path : String
  start_time : TVal
  end_time : TVal
  volume_multiplier : Int
deriving DecidableEq, Repr

/-- Exceptions of the library paths: `notFound` and `parseErr` are Python
`ValueError`s (`找不到` / `strptime`); `popErr` is the `IndexError` of
popping an empty list, unreachable when the shuffle permutes. -/
inductive LibErr where
  | notFound (tag : String)
  | parseErr
  | popErr
deriving DecidableEq, Repr

/-- Lines 94-112 of `get_random_segment_by_tag`: resolve the popped pair to
a `VideoSegment` — convert both markers, read the volume with default,
substitute the pre-rendered clip (markers collapsed to `"full"`) when its
file exists and the start marker is not `"full"`.  `none` models the
`ValueError` that `to_seconds` raises on a malformed timestamp. -/
def resolve_segment (env : LibEnv) (p : Pair) : Option VideoSegment :=
  match to_seconds p.2.start_time, to_seconds p.2.end_time with
  | some start_tv, some end_tv =>
    let vol := p.1.volume_multiplier.getD 1000
    let full_path := joinPath env.raw_dir p.1.file_name
    if p.2.start_time ≠ "full" then
      let clipped_path := joinPath env.clips_dir (clipped_filename p.1 p.2)
      if env.clip_exists clipped_path then
        some ⟨clipped_path, .str "full", .str "full", vol⟩
      else some ⟨full_path, start_tv, end_tv, vol⟩
    else some ⟨full_path, start_tv, end_tv, vol⟩
  | _, _ => none

/-- Lines 84-88 of `get_random_segment_by_tag`: the bag drawn from — a
reshuffled copy of the tag's full pool when the stored bag is absent or
empty, the stored bag otherwise. -/
def pool_refill (shuffle : List Pair → List Pair) (cache : List Pair) :
    Option (List Pair) → List Pair
  | none => shuffle cache
  | some [] => shuffle cache
  | some (p :: ps) => p :: ps

/-- Lines 90-112: pop the last element of the (pre-shuffled) bag, store the
rest, resolve the popped pair. -/
def pop_resolve (env : LibEnv) (pools : Pools) (tag : String)
    (pool0 : List Pair) : Except LibErr (Pair × VideoSegment) × Pools :=
  match pool0.getLast? with
  | none => (.error .popErr, pools)
  | some chosen =>
    let pools1 := Function.update pools tag (some pool0.dropLast)
    match resolve_segment env chosen with
    | none => (.error .parseErr, pools1)
    | some vs => (.ok (chosen, vs), pools1)

/-- `get_random_segment_by_tag` (`video_library.py` lines 74-112).
`shuffle` is the permutation `random.shuffle` applies if this call refills
the tag's bag.  Returns the outcome together with the shuffle-pools state
after the call (the popped pair is returned alongside the Python return
value, the resolved `VideoSegment`).  The pool state is returned in every
case because Python's pop mutates before a later `ValueError` can be
raised; on `notFound` nothing has been mutated. -/
def get_random_segment_by_tag (env : LibEnv) (shuffle : List Pair → List Pair)
    (videos : List CatalogVideo) (pools : Pools) (tag : String) :
    Except LibErr (Pair × VideoSegment) × Pools :=
  match tag_cache videos tag with
  | [] => (.error (.notFound tag), pools)
  | c :: cs => pop_resolve env pools tag (pool_refill shuffle (c :: cs) (pools tag))

deriving instance DecidableEq for Except

/-- Concrete one-segment catalog used by several witnesses: the `"intro"`
tag of the testable-properties section. -/
def introSeg : SegSpec := ⟨"00:00:05.0", "00:00:10.0"⟩

/-- Its video entry: volume `0.8` (= 800 milli-units). -/
def introVideo : CatalogVideo := ⟨"foo.mp4", some 800, [("intro", [introSeg])]⟩

/-- A library environment with no pre-rendered clips on disk. -/
def noClipEnv : LibEnv := ⟨"raw", "clips", fun _ => false⟩

/-! ## OBSController (`modules/obs_controller.py`) -/

/-- Scene/source names parsed by `_parse_scene_settings` and stored on the
controller instance. -/
structure SceneCfg where
  SCENE_MAIN : String
  SCENE_EVENT : String
  SCENE_PREVIEW : String
  SOURCE_MEDIA : String
  SOURCE_BG_MAIN : String
  SOURCE_BG_PREVIEW : String
deriving DecidableEq, Repr

/-- Result of `calculate_ab_transition`. -/
structure TransitionData where
  target_scene : String
  preview_scene : String
  bg_source : String
  hide_source : String
deriving DecidableEq, Repr

/-- `calculate_ab_transition` (`obs_controller.py` lines 83-103).  The
current scene is `Option String` because `get_current_program_scene`
returns Python `None` on failure; `None == SCENE_PREVIEW` is false, taking
the else branch like any non-Preview scene. -/
def calculate_ab_transition (cfg : SceneCfg) (current_scene : Option String) :
    TransitionData :=
  if current_scene = some cfg.SCENE_PREVIEW then
    ⟨cfg.SCENE_MAIN, cfg.SCENE_PREVIEW, cfg.SOURCE_BG_PREVIEW, cfg.SOURCE_BG_MAIN⟩
  else
    ⟨cfg.SCENE_PREVIEW, cfg.SCENE_MAIN, cfg.SOURCE_BG_MAIN, cfg.SOURCE_BG_PREVIEW⟩

/-- Python truthiness of an optional string (`if s:`): false for `None` and
for the empty string. -/
def truthy : Option String → Bool
  | none => false
  | some s => !(s == "")

/-- Mutable controller fields touched by the playback logic
(`OBSController.__init__`).  `active_timer_thread` holds the identity token
of the armed timer thread.  `ignore_end_event_counter` is the
stale-notification suppression counter that `main.py` reads and decrements:
`none` means the Python attribute does not exist on the instance — which is
its actual condition in every run, since `__init__` and the rest of the
repository never create it (see the C2 and C4 theorems); reading it then
raises `AttributeError`.  `some n` models an instance on which the
attribute holds `n`. -/
structure CtrlState where
  cfg : SceneCfg
  is_timed_playback : Bool
  active_timer_thread : Option Nat
  current_target_scene : Option String
  current_preview_target : Option String
  is_standby_mode : Bool
  ignore_end_event_counter : Option Int
deriving DecidableEq, Repr

/-- OBS WebSocket calls issued by the controller, in issue order.
`spawnStandbyStep` marks a hand-off to `standby_callback`
(`play_standby_video`), run asynchronously. -/
inductive Cmd where
  | getSceneItemId (scene source : String)
  | setSceneItemEnabled (scene : String) (item : Int) (enabled : Bool)
  | setInputMute (source : String) (muted : Bool)
  | setInputSettings (source file : String)
  | setInputVolume (source : String) (volMilli : Int)
  | getCurrentProgramScene
  | setCurrentProgramScene (scene : String)
  | setMediaCursor (source : String) (ms : Int)
  | triggerPlay (source : String)
  | getMediaInputStatus (source : String)
  | getSceneList
  | setCurrentPreviewScene (scene : String)
  | spawnStandbyStep
deriving DecidableEq, Repr

/-- Response oracle for the OBS WebSocket.  `none` in an `Option` result
means the call raised.  `pollDuration` answers the i-th duration poll
(`some none` = status returned with a `None` duration); `setMediaCursor`
answers the i-th cursor-set attempt; `cursorReadback` is the final cursor
readback, `none` covering both a raised call and a `None` cursor (the code
treats the two identically); `sceneList` answers `GetSceneList` in
`set_current_scene`. -/
structure ObsEnv where
  getSceneItemId : String → String → Option Int
  setInputMute : String → Bool → Option Unit
  setInputSettings : String → String → Option Unit
  setInputVolume : String → Int → Option Unit
  getCurrentProgramScene : Option String
  setCurrentProgramScene : String → Option Unit
  setMediaCursor : Nat → Option Unit
  triggerPlay : Option Unit
  pollDuration : Nat → Option (Option Int)
  cursorReadback : Option Int
  sceneList : Option (List String)

/-- `set_current_scene` (lines 193-202): fetch the scene list (failure is
caught), switch only if the name is in the list.  Returns the calls
issued. -/
def set_current_scene_cmds (env : ObsEnv) (name : String) : List Cmd :=
  match env.sceneList with
  | none => [.getSceneList]
  | some scenes =>
    if name ∈ scenes then [.getSceneList, .setCurrentProgramScene name]
    else [.getSceneList]

/-- `_wait_for_media_duration`'s poll loop (lines 213-222), polling from
attempt index `i` with `k` attempts left: first positive duration wins,
raised calls and `None`/non-positive durations are skipped, `-1` after the
budget. -/
def wait_poll (env : ObsEnv) (source : String) : Nat → Nat → Int × List Cmd
  | _, 0 => (-1, [])
  | i, k + 1 =>
    match env.pollDuration i with
    | some (some d) =>
      if d > 0 then (d, [.getMediaInputStatus source])
      else
        let r := wait_poll env source (i + 1) k
        (r.1, .getMediaInputStatus source :: r.2)
    | _ =>
      let r := wait_poll env source (i + 1) k
      (r.1, .getMediaInputStatus source :: r.2)

/-- `_wait_for_media_duration` with its default budget of 20 attempts. -/
def wait_for_media_duration (env : ObsEnv) (source : String) : Int × List Cmd :=
  wait_poll env source 0 20

/-- The 5-attempt cursor-set loop of `play_video_segment` (lines 290-295),
from attempt index `i` with `k` attempts left.  Each call is unwrapped, so
the first raise aborts the whole play sequence (`.1 = false`). -/
def cursor_attempts (env : ObsEnv) (source : String) (ms : Int) :
    Nat → Nat → Bool × List Cmd
  | _, 0 => (true, [])
  | i, k + 1 =>
    match env.setMediaCursor i with
    | some _ =>
      let r := cursor_attempts env source ms (i + 1) k
      (r.1, .setMediaCursor source ms :: r.2)
    | none => (false, [.setMediaCursor source ms])

/-- Identity and captured arguments of a `_timer_worker` thread.  `phase`
tracks its progress: `started` = not yet past the 0.1 s identity check,
`checked` = passed the check and sleeping until the deadline, `done` =
returned.  `delay` is in microseconds. -/
inductive TimerPhase where
  | started
  | checked
  | done
deriving DecidableEq, Repr

structure TimerProc where
  id : Nat
  delay : Int
  target : String
  preview : Option String
  phase : TimerPhase
deriving DecidableEq, Repr

/-- Outcome of `play_video_segment`: controller state after the sequence
(partial mutations are kept when a call raised), the calls issued,
`failed` = an unwrapped call raised (the exception propagates to
`handle_play_request`), and the completion timer armed by this call, if
any. -/
structure PlayResult where
  st : CtrlState
  trace : List Cmd
  failed : Bool
  armed : Option TimerProc
deriving Repr

/-- `play_video_segment` (lines 250-327).  `tid` is the fresh thread
identity used if this call arms a timer.  Times are integer microseconds:
`int(start * 1000)` milliseconds is `tdiv start 1000`, the 0.2 s grace is
`200000`, `media_duration_ms / 1000.0` seconds is `* 1000` microseconds. -/
def play_video_segment (env : ObsEnv) (tid : Nat) (st0 : CtrlState)
    (scene_name source_name background_source_name : String)
    (segment : VideoSegment) (target_scene_name : String)
    (preview_target_scene_name : Option String := none)
    (source_to_hide : Option String := none) : PlayResult :=
  let st := { st0 with
              is_timed_playback := false
              current_target_scene := some target_scene_name
              current_preview_target := preview_target_scene_name }
  let hideTrace : List Cmd :=
    if truthy source_to_hide then
      let h := source_to_hide.getD ""
      match env.getSceneItemId scene_name h with
      | none => [.getSceneItemId scene_name h]
      | some item =>
        [.getSceneItemId scene_name h, .setSceneItemEnabled scene_name item false]
    else []
  let bgTrace : List Cmd :=
    match env.getSceneItemId scene_name background_source_name with
    | none => [.getSceneItemId scene_name background_source_name]
    | some item =>
      [.getSceneItemId scene_name background_source_name,
       .setSceneItemEnabled scene_name item true]
  let t0 := hideTrace ++ bgTrace ++ [Cmd.setInputMute source_name true]
  match env.setInputMute source_name true with
  | none => ⟨st, t0, true, none⟩
  | some _ =>
  let t1 := t0 ++ [Cmd.setInputSettings source_name segment.file_path]
  match env.setInputSettings source_name segment.file_path with
  | none => ⟨st, t1, true, none⟩
  | some _ =>
  let t2 := t1 ++ [Cmd.setInputVolume source_name segment.volume_multiplier]
  match env.setInputVolume source_name segment.volume_multiplier with
  | none => ⟨st, t2, true, none⟩
  | some _ =>
  let cur := env.getCurrentProgramScene
  let t3 := t2 ++ [Cmd.getCurrentProgramScene]
  let switched : Bool × List Cmd :=
    if cur = some scene_name then (true, t3)
    else
      match env.setCurrentProgramScene scene_name with
      | none => (false, t3 ++ [Cmd.setCurrentProgramScene scene_name])
      | some _ => (true, t3 ++ [Cmd.setCurrentProgramScene scene_name])
  if switched.1 = false then ⟨st, switched.2, true, none⟩
  else
  let t4 := switched.2
  let cursor : Bool × List Cmd :=
    match segment.start_time with
    | .sec q => cursor_attempts env source_name (Int.tdiv q 1000) 0 5
    | .str _ => (true, [])
  if cursor.1 = false then ⟨st, t4 ++ cursor.2, true, none⟩
  else
  let tc := cursor.2
  let t5 := t4 ++ tc ++ [Cmd.setInputMute source_name false]
  match env.setInputMute source_name false with
  | none => ⟨st, t5, true, none⟩
  | some _ =>
  let t6 := t5 ++ [Cmd.triggerPlay source_name]
  match env.triggerPlay with
  | none => ⟨st, t6, true, none⟩
  | some _ =>
  let dur := wait_for_media_duration env source_name
  let media_duration_ms := dur.1
  let t7 := t6 ++ dur.2
  let commanded_start : Int :=
    match segment.start_time with
    | .sec q => q
    | .str _ => 0
  let end0 : Int :=
    match segment.end_time with
    | .sec q => q
    | .str _ => -1000000
  let end_usec : Int :=
    if (segment.end_time = .str "end" ∨ segment.end_time = .str "full") ∧
        media_duration_ms > 0 then
      media_duration_ms * 1000
    else end0
  if end_usec > 0 then
    let t8 := t7 ++ [Cmd.getMediaInputStatus source_name]
    let actual_start : Int :=
      match env.cursorReadback with
      | some v => if v ≥ 0 then v * 1000 else commanded_start
      | none => commanded_start
    let play_duration := end_usec - actual_start + 200000
    if play_duration > 0 then
      ⟨{ st with is_timed_playback := true, active_timer_thread := some tid },
        t8, false,
        some ⟨tid, play_duration, target_scene_name, preview_target_scene_name,
              .started⟩⟩
    else ⟨{ st with is_timed_playback := false }, t8, false, none⟩
  else ⟨{ st with is_timed_playback := false }, t7, false, none⟩

/-- The identity check `_timer_worker` runs 0.1 s after start (lines
226-228): a thread whose identity no longer equals `active_timer_thread`
returns; one that matches proceeds to sleep out the remaining delay. -/
def timer_check (st : CtrlState) (t : TimerProc) : TimerProc :=
  if t.phase = .started then
    if st.active_timer_thread = some t.id then { t with phase := .checked }
    else { t with phase := .done }
  else t

/-- The deadline action of `_timer_worker` (lines 234-248), run when the
sleep ends by a thread that passed its identity check: hand off to the
standby callback if the standby flag is set, else restore the program
scene via `set_current_scene`, set the preview scene if a target was
captured, and clear `active_timer_thread`. -/
def timer_fire (env : ObsEnv) (st : CtrlState) (t : TimerProc) :
    CtrlState × TimerProc × List Cmd :=
  if t.phase = .checked then
    if st.is_standby_mode then (st, { t with phase := .done }, [.spawnStandbyStep])
    else
      let previewCmds : List Cmd :=
        if truthy t.preview then [.setCurrentPreviewScene (t.preview.getD "")]
        else []
      ({ st with active_timer_thread := none }, { t with phase := .done },
        set_current_scene_cmds env t.target ++ previewCmds)
  else (st, t, [])

/-! ## The event handler and request orchestration (`main.py`) -/

/-- `on_media_input_playback_state_changed` (`main.py` lines 118-152):
for an `ENDED` state of the controlled media source the handler first
reads `obs_controller.ignore_end_event_counter` (line 125) — `.error ()`
models the `AttributeError` this read raises when the attribute was never
created, aborting the handler.  On an instance where the attribute exists:
discard and decrement while it is positive; do nothing in timed mode; hand
off to the standby callback in standby mode; otherwise restore the
recorded target scene (falling back to `SCENE_PREVIEW` when none is
recorded) and then the recorded preview scene. -/
def on_media_playback_state_changed (env : ObsEnv) (st : CtrlState)
    (input_name mstate : String) : Except Unit (CtrlState × List Cmd) :=
  if input_name = st.cfg.SOURCE_MEDIA ∧ mstate = "OBS_MEDIA_STATE_ENDED" then
    match st.ignore_end_event_counter with
    | none => .error ()
    | some n =>
      if n > 0 then
        .ok ({ st with ignore_end_event_counter := some (n - 1) }, [])
      else if st.is_timed_playback then .ok (st, [])
      else if st.is_standby_mode then .ok (st, [.spawnStandbyStep])
      else
        let target :=
          if truthy st.current_target_scene then st.current_target_scene.getD ""
          else st.cfg.SCENE_PREVIEW
        let previewCmds : List Cmd :=
          if truthy st.current_preview_target then
            [.setCurrentPreviewScene (st.current_preview_target.getD "")]
          else []
        .ok (st, set_current_scene_cmds env target ++ previewCmds)
  else .ok (st, [])

/-- The `VideoLibrary` instance held by the controller: the loaded catalog
and the shuffle pools. -/
structure LibState where
  videos : List CatalogVideo
  pools : Pools

/-- Controller plus injected library (`self.library`, `None` before
`set_library`). -/
structure SysState where
  ctrl : CtrlState
  library : Option LibState

/-- `play_standby_video` (lines 105-125): select from the `"待機"` tag and
play with fixed `target = SCENE_MAIN`, `preview = SCENE_PREVIEW`; every
exception inside is caught and swallowed (partial state mutations are
kept). -/
def play_standby_video (env : ObsEnv) (lenv : LibEnv)
    (shuffle : List Pair → List Pair) (tid : Nat) (st : SysState) : SysState :=
  match st.library with
  | none => st
  | some lib =>
    match get_random_segment_by_tag lenv shuffle lib.videos lib.pools "待機" with
    | (.error _, pools1) => { st with library := some { lib with pools := pools1 } }
    | (.ok (_, seg), pools1) =>
      let pr := play_video_segment env tid st.ctrl st.ctrl.cfg.SCENE_EVENT
        st.ctrl.cfg.SOURCE_MEDIA st.ctrl.cfg.SOURCE_BG_MAIN seg
        st.ctrl.cfg.SCENE_MAIN (some st.ctrl.cfg.SCENE_PREVIEW) none
      { st with ctrl := pr.st, library := some { lib with pools := pools1 } }

/-- The structured result of `handle_play_request`. -/
structure ApiResult where
  status : String
  message : String
  code : Nat
deriving DecidableEq, Repr

/-- `handle_play_request` (lines 127-178).  The standby tag starts the
standby loop and returns success unconditionally; a normal tag first
clears the standby flag, fails with 500 if no library is injected, with
404 on the `ValueError`s of selection (unknown/empty tag, malformed
timestamp), with 500 on any other exception (`popErr`, or an unwrapped
OBS call raising inside `play_video_segment`); otherwise 200. -/
def handle_play_request (env : ObsEnv) (lenv : LibEnv)
    (shuffle : List Pair → List Pair) (tid : Nat) (st : SysState)
    (tag : String) : ApiResult × SysState :=
  if tag = "待機" then
    let st1 := { st with ctrl := { st.ctrl with is_standby_mode := true } }
    let st2 := play_standby_video env lenv shuffle tid st1
    (⟨"success", "Started standby loop", 200⟩, st2)
  else
    let st1 :=
      if st.ctrl.is_standby_mode then
        { st with ctrl := { st.ctrl with is_standby_mode := false } }
      else st
    match st1.library with
    | none => (⟨"error", "Library not initialized", 500⟩, st1)
    | some lib =>
      match get_random_segment_by_tag lenv shuffle lib.videos lib.pools tag with
      | (.error (.notFound t), pools1) =>
        (⟨"error", "no video with tag " ++ t, 404⟩,
          { st1 with library := some { lib with pools := pools1 } })
      | (.error .parseErr, pools1) =>
        (⟨"error", "time data does not match format", 404⟩,
          { st1 with library := some { lib with pools := pools1 } })
      | (.error .popErr, pools1) =>
        (⟨"error", "An internal error occurred", 500⟩,
          { st1 with library := some { lib with pools := pools1 } })
      | (.ok (_, seg), pools1) =>
        let st2 := { st1 with library := some { lib with pools := pools1 } }
        let td := calculate_ab_transition st2.ctrl.cfg env.getCurrentProgramScene
        let pr := play_video_segment env tid st2.ctrl st2.ctrl.cfg.SCENE_EVENT
          st2.ctrl.cfg.SOURCE_MEDIA td.bg_source seg td.target_scene
          (some td.preview_scene) (some td.hide_source)
        if pr.failed then
          (⟨"error", "An internal error occurred", 500⟩, { st2 with ctrl := pr.st })
        else
          (⟨"success", "Playing segment for tag " ++ tag, 200⟩,
            { st2 with ctrl := pr.st })

/-- The serialized mutating events of §5: an OBS media notification, an
inbound play request, one asynchronous standby step. -/
inductive OrchEv where
  | notif (env : ObsEnv) (input mstate : String)
  | play (env : ObsEnv) (lenv : LibEnv) (shuffle : List Pair → List Pair)
      (tid : Nat) (tag : String)
  | standbyStep (env : ObsEnv) (lenv : LibEnv)
      (shuffle : List Pair → List Pair) (tid : Nat)

/-- One orchestrator step.  A handler that raises (`AttributeError` on the
never-created counter attribute) aborts without mutating the controller. -/
def orch_step (st : SysState) : OrchEv → SysState
  | .notif env i s =>
    match on_media_playback_state_changed env st.ctrl i s with
    | .error _ => st
    | .ok (c, _) => { st with ctrl := c }
  | .play env lenv sh tid tag => (handle_play_request env lenv sh tid st tag).2
  | .standbyStep env lenv sh tid => play_standby_video env lenv sh tid st

/-- A sequence of orchestrator steps. -/
def orch_run (st : SysState) (evs : List OrchEv) : SysState :=
  evs.foldl orch_step st

/-- Concrete scene configuration for witnesses. -/
def cfgA : SceneCfg := ⟨"Main", "Event", "Preview", "Media", "BgMain", "BgPreview"⟩

/-- Controller state right after `__init__` + `set_library`: the
suppression-counter attribute does not exist (`none`), as in every real
run. -/
def ctrl0 : CtrlState := ⟨cfgA, false, none, none, none, false, none⟩

/-- A fully responsive OBS oracle: every call succeeds, the program scene
is `"Main"`, duration polls report 20000 ms, the cursor reads back at
5000 ms. -/
def envA : ObsEnv :=
  { getSceneItemId := fun _ _ => some 1
    setInputMute := fun _ _ => some ()
    setInputSettings := fun _ _ => some ()
    setInputVolume := fun _ _ => some ()
    getCurrentProgramScene := some "Main"
    setCurrentProgramScene := fun _ => some ()
    setMediaCursor := fun _ => some ()
    triggerPlay := some ()
    pollDuration := fun _ => some (some 20000)
    cursorReadback := some 5000
    sceneList := some ["Main", "Preview", "Event"] }

/-- The resolved `"intro"` segment: raw path, 5.0 s to 10.0 s, volume 0.8. -/
def introResolved : VideoSegment := ⟨"raw/foo.mp4", .sec 5000000, .sec 10000000, 800⟩

/-- A resolved segment with sentinel markers (`full`/`end`): no numeric
end time. -/
def fullSeg : VideoSegment := ⟨"raw/foo.mp4", .str "full", .str "end", 1000⟩

/-- An OBS oracle whose 20 duration polls all return `None` and whose final
cursor readback fails; everything else responds. -/
def envNoDur : ObsEnv :=
  { envA with pollDuration := fun _ => some none, cursorReadback := none }

/-- A pending completion timer of thread identity 1, past nothing yet. -/
def staleTimer : TimerProc := ⟨1, 5200000, "Main", some "Preview", .started⟩

/-- Controller state in which timer thread 1 is the active timer. -/
def ctrlT : CtrlState := { ctrl0 with active_timer_thread := some 1 }

/-- The superseding play request of the C3 run: it arms a new timer with
thread identity 2, replacing the active-timer token. -/
def c3Play : PlayResult :=
  play_video_segment envA 2 ctrlT "Event" "Media" "BgMain" introResolved
    "Preview" (some "Main") (some "BgPreview")

/-- The iterated selection: `select_run lenv shuffles videos tag i k pools`
makes `k` consecutive `get_random_segment_by_tag` calls starting at call
index `i` (index `i` uses shuffle `shuffles i`), collecting the popped
`(video, segment)` pairs and threading the pool state. -/
def select_run (lenv : LibEnv) (shuffles : Nat → List Pair → List Pair)
    (videos : List CatalogVideo) (tag : String) :
    Nat → Nat → Pools → List (Except LibErr Pair) × Pools
  | _, 0, pools => ([], pools)
  | i, k + 1, pools =>
    let r := get_random_segment_by_tag lenv (shuffles i) videos pools tag
    let rest := select_run lenv shuffles videos tag (i + 1) k r.2
    (r.1.map Prod.fst :: rest.1, rest.2)

/-- The OBS oracle answers every *unwrapped* command of the play sequence
without raising (says nothing about duration polls, readbacks or the
wrapped calls). -/
def ObsEnv.reliable (env : ObsEnv) : Prop :=
  (∀ s b, env.setInputMute s b = some ()) ∧
  (∀ s f, env.setInputSettings s f = some ()) ∧
  (∀ s v, env.setInputVolume s v = some ()) ∧
  (∀ s, env.setCurrentProgramScene s = some ()) ∧
  (∀ i, env.setMediaCursor i = some ()) ∧
  env.triggerPlay = some ()

/-! ## Theorems -/

/-- Shared: `get_random_segment_by_tag` on an absent-or-empty tag fails with
the tag-not-found `ValueError` and returns the pool state untouched. -/
theorem get_random_not_found (lenv : LibEnv) (shuffle : List Pair → List Pair)
    (videos : List CatalogVideo) (pools : Pools) (tag : String)
    (h : tag_cache videos tag = []) :
    get_random_segment_by_tag lenv shuffle videos pools tag =
      (.error (.notFound tag), pools) := by
  unfold get_random_segment_by_tag
  rw [h]

set_option maxHeartbeats 1000000 in
/-- Shared: no exit of `play_video_segment` ever touches the suppression
counter. -/
theorem play_preserves_counter (env : ObsEnv) (tid : Nat) (st0 : CtrlState)
    (scene source bg : String) (segment : VideoSegment) (target : String)
    (preview hide : Option String) :
    (play_video_segment env tid st0 scene source bg segment target preview
        hide).st.ignore_end_event_counter = st0.ignore_end_event_counter := by
  simp only [play_video_segment]
  repeat' split
  all_goals rfl

/-- Shared: the cursor-set loop succeeds when every cursor-set call is
answered. -/
theorem cursor_attempts_fst (env : ObsEnv) (source : String) (ms : Int)
    (h : ∀ i, env.setMediaCursor i = some ()) :
    ∀ k i, (cursor_attempts env source ms i k).1 = true := by
  intro k
  induction k with
  | zero => intro i; rfl
  | succ k ih =>
    intro i
    simp only [cursor_attempts, h]
    exact ih (i + 1)

/-- Shared: when no poll in the window returns a positive duration, the
poll loop reports `-1`. -/
theorem wait_poll_neg (env : ObsEnv) (source : String) :
    ∀ (k i : Nat),
      (∀ j, j < i + k → ∀ d, env.pollDuration j = some (some d) → ¬ 0 < d) →
      (wait_poll env source i k).1 = -1 := by
  intro k
  induction k with
  | zero => intro i _; rfl
  | succ k ih =>
    intro i h
    have hrec : (wait_poll env source (i + 1) k).1 = -1 := by
      refine ih (i + 1) fun j hj d hd => h j (by omega) d hd
    rw [wait_poll]
    rcases hpd : env.pollDuration i with _ | od
    · simpa using hrec
    · rcases od with _ | d
      · simpa using hrec
      · have hd : ¬ 0 < d := h i (by omega) d hpd
        simp [hd, hrec]

/-- C7: `calculate_ab_transition` maps the Preview scene to
{target Main, preview Preview, show PreviewBg, hide MainBg}, every other
current scene (including the `None` of a failed readback) to
{target Preview, preview Main, show MainBg, hide PreviewBg}, and applying
it from Main and then from the resulting target lands back on Main. -/
theorem claim_C7 (cfg : SceneCfg) :
    calculate_ab_transition cfg (some cfg.SCENE_PREVIEW) =
      ⟨cfg.SCENE_MAIN, cfg.SCENE_PREVIEW, cfg.SOURCE_BG_PREVIEW, cfg.SOURCE_BG_MAIN⟩ ∧
    (∀ s : Option String, s ≠ some cfg.SCENE_PREVIEW →
      calculate_ab_transition cfg s =
        ⟨cfg.SCENE_PREVIEW, cfg.SCENE_MAIN, cfg.SOURCE_BG_MAIN, cfg.SOURCE_BG_PREVIEW⟩) ∧
    (calculate_ab_transition cfg
        (some ((calculate_ab_transition cfg (some cfg.SCENE_MAIN)).target_scene))).target_scene =
      cfg.SCENE_MAIN := by
  refine ⟨by simp [calculate_ab_transition], fun s hs => by simp [calculate_ab_transition, hs], ?_⟩
  by_cases h : cfg.SCENE_MAIN = cfg.SCENE_PREVIEW <;>
    simp [calculate_ab_transition, h]

/-- Witness for C7 at a concrete configuration and a non-Preview scene. -/
theorem claim_C7_witness :
    calculate_ab_transition cfgA (some "Other") =
      ⟨"Preview", "Main", "BgMain", "BgPreview"⟩ :=
  (claim_C7 cfgA).2.1 (some "Other") (by decide)

/-- C8: selecting a tag that is absent from the catalog or has no segments
raises the not-found `ValueError` and leaves the shuffle pools (and the
immutable tag cache) exactly as they were. -/
theorem claim_C8 (lenv : LibEnv) (shuffle : List Pair → List Pair)
    (videos : List CatalogVideo) (pools : Pools) (tag : String)
    (h : tag_cache videos tag = []) :
    get_random_segment_by_tag lenv shuffle videos pools tag =
      (.error (.notFound tag), pools) :=
  get_random_not_found lenv shuffle videos pools tag h

/-- Witness for C8: the one-video catalog has no `"missing"` tag. -/
theorem claim_C8_witness :
    get_random_segment_by_tag noClipEnv id [introVideo] (fun _ => none)
        "missing" =
      (.error (.notFound "missing"), fun _ => none) :=
  claim_C8 noClipEnv id [introVideo] (fun _ => none) "missing" (by decide)

/-- C10: a play request for the standby tag `"待機"` always returns
status `success` with code 200 — whatever the library, catalog and OBS
oracle look like, because `play_standby_video` swallows every failure. -/
theorem claim_C10 (env : ObsEnv) (lenv : LibEnv)
    (shuffle : List Pair → List Pair) (tid : Nat) (st : SysState) :
    (handle_play_request env lenv shuffle tid st "待機").1.status = "success" ∧
    (handle_play_request env lenv shuffle tid st "待機").1.code = 200 := by
  simp [handle_play_request]

/-- C6: end-to-end on the concrete `"intro"` catalog — selection resolves
the raw file with start 5.0 s, end 10.0 s, volume 0.8 (no clip on disk),
and the play sequence, polling a 20000 ms duration and reading the cursor
back at 5.0 s, arms a completion timer for (10.0 − 5.0) + 0.2 = 5.2 s and
enters timed mode. -/
theorem claim_C6 :
    (get_random_segment_by_tag noClipEnv id [introVideo] (fun _ => none)
        "intro").1 = .ok ((introVideo, introSeg), introResolved) ∧
    (play_video_segment envA 7 ctrl0 "Event" "Media" "BgMain" introResolved
        "Main" (some "Preview") none).armed =
      some ⟨7, 5200000, "Main", some "Preview", .started⟩ ∧
    (play_video_segment envA 7 ctrl0 "Event" "Media" "BgMain" introResolved
        "Main" (some "Preview") none).st.is_timed_playback = true := by
  refine ⟨by decide, by decide, by decide⟩

set_option maxHeartbeats 1000000 in
/-- C2: the code never increments (nor even creates) the suppression
counter: every run of `play_video_segment` leaves
`ignore_end_event_counter` exactly as it was, even though every completed
run has issued the `SetInputSettings` rebind the claim says must bump the
counter by one.  (`main.py` reads and decrements the attribute, but no
line of the repository initializes or increments it.) -/
theorem claim_C2 (env : ObsEnv) (tid : Nat) (st0 : CtrlState)
    (scene source bg : String) (segment : VideoSegment) (target : String)
    (preview hide : Option String) :
    (play_video_segment env tid st0 scene source bg segment target preview
        hide).st.ignore_end_event_counter = st0.ignore_end_event_counter ∧
    ((play_video_segment env tid st0 scene source bg segment target preview
        hide).failed = false →
      Cmd.setInputSettings source segment.file_path ∈
        (play_video_segment env tid st0 scene source bg segment target
          preview hide).trace) := by
  refine ⟨play_preserves_counter env tid st0 scene source bg segment target
    preview hide, ?_⟩
  simp only [play_video_segment]
  repeat' split
  all_goals intro hf
  all_goals solve
    | simp at hf
    | simp [List.mem_append]

/-- Witness for C2 at the concrete play run of the end-to-end scenario:
the source is rebound once, the counter does not move. -/
theorem claim_C2_witness :
    (play_video_segment envA 7 ctrl0 "Event" "Media" "BgMain" introResolved
        "Main" (some "Preview") none).st.ignore_end_event_counter = none ∧
    Cmd.setInputSettings "Media" "raw/foo.mp4" ∈
      (play_video_segment envA 7 ctrl0 "Event" "Media" "BgMain" introResolved
        "Main" (some "Preview") none).trace :=
  ⟨(claim_C2 envA 7 ctrl0 "Event" "Media" "BgMain" introResolved "Main"
      (some "Preview") none).1,
   (claim_C2 envA 7 ctrl0 "Event" "Media" "BgMain" introResolved "Main"
      (some "Preview") none).2 (by decide)⟩

/-- Counterexample to C3 as stated: timer thread 1 passes its 0.1 s
identity check; afterwards a superseding play request (thread 2) replaces
the active-timer token; the pending timer nevertheless fires and performs
the program-scene restore — the replacement happened before the timer
fired, yet the superseded timer was not a no-op. -/
theorem claim_C3_counterexample :
    timer_check ctrlT staleTimer = { staleTimer with phase := .checked } ∧
    c3Play.st.active_timer_thread = some 2 ∧
    staleTimer.id = 1 ∧
    Cmd.setCurrentProgramScene "Main" ∈
      (timer_fire envA c3Play.st (timer_check ctrlT staleTimer)).2.2 := by
  decide

/-- C3 (amended): a completion timer whose captured identity no longer
matches the active-timer token *at the moment of its identity check,
0.1 s after start*, never performs the restore sequence: it returns at
the check, and its deadline action emits no command and changes no state,
whatever happens in between. -/
theorem claim_C3 (env : ObsEnv) (st st2 : CtrlState) (t : TimerProc)
    (hp : t.phase = .started) (hm : st.active_timer_thread ≠ some t.id) :
    timer_check st t = { t with phase := .done } ∧
    timer_fire env st2 (timer_check st t) = (st2, { t with phase := .done }, []) := by
  have h1 : timer_check st t = { t with phase := .done } := by
    simp [timer_check, hp, hm]
  rw [h1]
  exact ⟨rfl, by simp [timer_fire]⟩

/-- Witness for C3 (amended): a play request that replaced the token with
thread 5 before timer thread 1's identity check makes that timer a
no-op. -/
theorem claim_C3_witness :
    timer_check { ctrl0 with active_timer_thread := some 5 } staleTimer =
      { staleTimer with phase := .done } ∧
    timer_fire envA ctrl0
        (timer_check { ctrl0 with active_timer_thread := some 5 } staleTimer) =
      (ctrl0, { staleTimer with phase := .done }, []) :=
  claim_C3 envA { ctrl0 with active_timer_thread := some 5 } ctrl0 staleTimer
    rfl (by decide)

/-- Counterexample to C5 as stated: a segment with the numeric end marker
10.0 s still arms a completion timer (for 5.2 s) and enters timed mode
although all 20 duration polls failed — the poll budget only forces
untimed mode when no numeric end time is available. -/
theorem claim_C5_counterexample :
    (play_video_segment envNoDur 3 ctrl0 "Event" "Media" "BgMain"
        introResolved "Main" (some "Preview") none).failed = false ∧
    (play_video_segment envNoDur 3 ctrl0 "Event" "Media" "BgMain"
        introResolved "Main" (some "Preview") none).st.is_timed_playback = true ∧
    (play_video_segment envNoDur 3 ctrl0 "Event" "Media" "BgMain"
        introResolved "Main" (some "Preview") none).armed =
      some ⟨3, 5200000, "Main", some "Preview", .started⟩ := by
  decide

set_option maxHeartbeats 1000000 in
/-- C5 (amended): for every segment whose end marker is a sentinel
(`full`/`end`, i.e. no numeric end time), if all 20 duration polls fail to
return a positive duration then the play sequence completes without error
(given that the unwrapped OBS commands answer), leaves the orchestrator
untimed (`is_timed_playback = false`) and arms no completion timer. -/
theorem claim_C5 (env : ObsEnv) (tid : Nat) (st0 : CtrlState)
    (scene source bg : String) (segment : VideoSegment) (target : String)
    (preview hide : Option String) (s : String)
    (hrel : env.reliable)
    (hend : segment.end_time = .str s)
    (hpoll : ∀ j, j < 20 → ∀ d, env.pollDuration j = some (some d) → ¬ 0 < d) :
    (play_video_segment env tid st0 scene source bg segment target preview
        hide).failed = false ∧
    (play_video_segment env tid st0 scene source bg segment target preview
        hide).st.is_timed_playback = false ∧
    (play_video_segment env tid st0 scene source bg segment target preview
        hide).armed = none := by
  obtain ⟨hm, hset, hv, hpr, hcur, htr⟩ := hrel
  have hdur : (wait_for_media_duration env source).1 = -1 := by
    refine wait_poll_neg env source 20 0 fun j hj d hd => hpoll j (by omega) d hd
  have hca : ∀ ms : Int, (cursor_attempts env source ms 0 5).1 = true :=
    fun ms => cursor_attempts_fst env source ms hcur 5 0
  have hbad : ¬ ((segment.end_time = TVal.str "end" ∨
      segment.end_time = TVal.str "full") ∧
      (wait_for_media_duration env source).1 > 0) := by
    rw [hdur]; simp
  rcases hst : segment.start_time with s' | q <;>
    by_cases hc : env.getCurrentProgramScene = some scene <;>
      simp [play_video_segment, hm, hset, hv, hpr, htr, hc, hst, hend, hdur,
        hbad, hca]

/-- Witness for C5 (amended): a `full`/`end` segment under 20 failed polls
ends untimed with no timer and no error. -/
theorem claim_C5_witness :
    (play_video_segment envNoDur 3 ctrl0 "Event" "Media" "BgMain" fullSeg
        "Main" (some "Preview") none).failed = false ∧
    (play_video_segment envNoDur 3 ctrl0 "Event" "Media" "BgMain" fullSeg
        "Main" (some "Preview") none).st.is_timed_playback = false ∧
    (play_video_segment envNoDur 3 ctrl0 "Event" "Media" "BgMain" fullSeg
        "Main" (some "Preview") none).armed = none :=
  claim_C5 envNoDur 3 ctrl0 "Event" "Media" "BgMain" fullSeg "Main"
    (some "Preview") none "end"
    ⟨fun _ _ => rfl, fun _ _ => rfl, fun _ _ => rfl, fun _ => rfl,
      fun _ => rfl, rfl⟩
    rfl
    (fun j _ d hd => by simp [envNoDur, envA] at hd)

/-- Shared: no exit of `play_standby_video` touches the suppression
counter. -/
theorem standby_preserves_counter (env : ObsEnv) (lenv : LibEnv)
    (shuffle : List Pair → List Pair) (tid : Nat) (st : SysState) :
    (play_standby_video env lenv shuffle tid st).ctrl.ignore_end_event_counter
      = st.ctrl.ignore_end_event_counter := by
  unfold play_standby_video
  repeat' split
  all_goals simp [play_preserves_counter]

/-- Shared: no exit of `handle_play_request` touches the suppression
counter. -/
theorem handle_preserves_counter (env : ObsEnv) (lenv : LibEnv)
    (shuffle : List Pair → List Pair) (tid : Nat) (st : SysState)
    (tag : String) :
    ((handle_play_request env lenv shuffle tid st tag).2).ctrl.ignore_end_event_counter
      = st.ctrl.ignore_end_event_counter := by
  unfold handle_play_request
  repeat' (first | split | dsimp only)
  all_goals simp [standby_preserves_counter, play_preserves_counter]

/-- C4 (the code contradicts the claim): the suppression-counter attribute
is never created anywhere in the repository, and no event ever creates it
— starting from the real initial condition (`none`), every sequence of
notifications, play requests and standby steps leaves it uncreated — so
every `ENDED` notification for the controlled media source makes the
handler raise `AttributeError` at the counter read (`main.py` line 125)
and abort.  The discard-and-decrement the claim describes therefore never
executes, and no program state satisfies its "counter greater than zero"
premise. -/
theorem claim_C4 :
    (∀ (env : ObsEnv) (st : CtrlState),
      st.ignore_end_event_counter = none →
      on_media_playback_state_changed env st st.cfg.SOURCE_MEDIA
          "OBS_MEDIA_STATE_ENDED" = .error ()) ∧
    (∀ (st : SysState) (evs : List OrchEv),
      st.ctrl.ignore_end_event_counter = none →
      (orch_run st evs).ctrl.ignore_end_event_counter = none) := by
  constructor
  · intro env st h
    simp [on_media_playback_state_changed, h]
  · intro st evs
    induction evs generalizing st with
    | nil => intro h; exact h
    | cons e evs ih =>
      intro h
      have hstep : (orch_step st e).ctrl.ignore_end_event_counter = none := by
        cases e with
        | notif env i s =>
          simp only [orch_step]
          rcases hh : on_media_playback_state_changed env st.ctrl i s with e | ⟨c, cmds⟩
          · exact h
          · have hc : c.ignore_end_event_counter = none := by
              unfold on_media_playback_state_changed at hh
              split at hh
              · rw [h] at hh
                simp at hh
              · simp at hh
                rw [← hh.1]
                exact h
            exact hc
        | play env lenv sh tid tag =>
          simpa [orch_step, handle_preserves_counter] using h
        | standbyStep env lenv sh tid =>
          simpa [orch_step, standby_preserves_counter] using h
      simpa [orch_run, List.foldl_cons] using ih (orch_step st e) hstep

/-- Witness for C4 at the failing input: the freshly constructed
controller (attribute uncreated) receiving an `ENDED` notification for
the controlled source — the handler raises instead of discarding, and a
run of notifications and play requests never creates the attribute. -/
theorem claim_C4_witness :
    on_media_playback_state_changed envA ctrl0 "Media"
        "OBS_MEDIA_STATE_ENDED" = .error () ∧
    (orch_run ⟨ctrl0, none⟩
        [OrchEv.notif envA "Media" "OBS_MEDIA_STATE_ENDED",
         OrchEv.play envA noClipEnv id 7 "intro",
         OrchEv.notif envA "Media"
           "OBS_MEDIA_STATE_ENDED"]).ctrl.ignore_end_event_counter = none :=
  ⟨claim_C4.1 envA ctrl0 rfl,
   claim_C4.2 ⟨ctrl0, none⟩
     [OrchEv.notif envA "Media" "OBS_MEDIA_STATE_ENDED",
      OrchEv.play envA noClipEnv id 7 "intro",
      OrchEv.notif envA "Media" "OBS_MEDIA_STATE_ENDED"] rfl⟩

/-- C9: `handle_play_request` always returns a structured result — one of
200/`success`, 404/`error`, 500/`error` (no exception escapes the
boundary); an uninitialized library yields 500, and an unknown or empty
tag yields 404. -/
theorem claim_C9 (env : ObsEnv) (lenv : LibEnv)
    (shuffle : List Pair → List Pair) (tid : Nat) (st : SysState)
    (tag : String) :
    (((handle_play_request env lenv shuffle tid st tag).1.code = 200 ∧
        (handle_play_request env lenv shuffle tid st tag).1.status = "success") ∨
      ((handle_play_request env lenv shuffle tid st tag).1.code = 404 ∧
        (handle_play_request env lenv shuffle tid st tag).1.status = "error") ∨
      ((handle_play_request env lenv shuffle tid st tag).1.code = 500 ∧
        (handle_play_request env lenv shuffle tid st tag).1.status = "error")) ∧
    (tag ≠ "待機" → st.library = none →
      (handle_play_request env lenv shuffle tid st tag).1.code = 500) ∧
    (∀ lib, tag ≠ "待機" → st.library = some lib →
      tag_cache lib.videos tag = [] →
      (handle_play_request env lenv shuffle tid st tag).1.code = 404) := by
  refine ⟨?_, ?_, ?_⟩
  · unfold handle_play_request
    repeat' (first | split | dsimp only)
    all_goals simp
  · intro htag hlib
    unfold handle_play_request
    rw [if_neg htag]
    split <;> simp [hlib]
  · intro lib htag hlib hcache
    have hgr := get_random_not_found lenv shuffle lib.videos lib.pools tag hcache
    unfold handle_play_request
    rw [if_neg htag]
    split <;> simp [hlib, hgr]

/-- Witness for C9: the uninitialized-library 500 and the unknown-tag
404. -/
theorem claim_C9_witness :
    (handle_play_request envA noClipEnv id 7 ⟨ctrl0, none⟩ "intro").1.code
      = 500 ∧
    (handle_play_request envA noClipEnv id 7
        ⟨ctrl0, some ⟨[introVideo], fun _ => none⟩⟩ "missing").1.code = 404 :=
  ⟨(claim_C9 envA noClipEnv id 7 ⟨ctrl0, none⟩ "intro").2.1 (by decide) rfl,
   (claim_C9 envA noClipEnv id 7 ⟨ctrl0, some ⟨[introVideo], fun _ => none⟩⟩
      "missing").2.2 ⟨[introVideo], fun _ => none⟩ (by decide) rfl (by decide)⟩

/-- Shared: a selection drawing from a stored, nonempty bag pops the
bag's last element and stores the rest, without reshuffling. -/
theorem select_step_stored (lenv : LibEnv) (shuffle : List Pair → List Pair)
    (videos : List CatalogVideo) (pools : Pools) (tag : String)
    (l' : List Pair) (a : Pair)
    (hc : tag_cache videos tag ≠ [])
    (hp : pools tag = some (l' ++ [a]))
    (hr : (resolve_segment lenv a).isSome) :
    ((get_random_segment_by_tag lenv shuffle videos pools tag).1.map Prod.fst
        = .ok a) ∧
    (get_random_segment_by_tag lenv shuffle videos pools tag).2
        = Function.update pools tag (some l') := by
  obtain ⟨c, cs, hcc⟩ := List.exists_cons_of_ne_nil hc
  obtain ⟨vs, hvs⟩ := Option.isSome_iff_exists.mp hr
  have hpop : pop_resolve lenv pools tag (l' ++ [a]) =
      (.ok (a, vs), Function.update pools tag (some l')) := by
    unfold pop_resolve
    rw [List.getLast?_concat, List.dropLast_concat]
    simp [hvs]
  have hpool : pool_refill shuffle (c :: cs) (pools tag) = l' ++ [a] := by
    rw [hp]
    rcases l' with _ | ⟨x, xs⟩ <;> rfl
  unfold get_random_segment_by_tag
  rw [hcc]
  simp [hpool, hpop, Except.map]

/-- Shared: a selection finding the bag absent or empty refills it with
the shuffled copy of the tag's full pool, pops the last element of that
copy and stores the rest. -/
theorem select_step_refill (lenv : LibEnv) (shuffle : List Pair → List Pair)
    (videos : List CatalogVideo) (pools : Pools) (tag : String)
    (l' : List Pair) (a : Pair)
    (hc : tag_cache videos tag ≠ [])
    (hp : pools tag = none ∨ pools tag = some [])
    (hs : shuffle (tag_cache videos tag) = l' ++ [a])
    (hr : (resolve_segment lenv a).isSome) :
    ((get_random_segment_by_tag lenv shuffle videos pools tag).1.map Prod.fst
        = .ok a) ∧
    (get_random_segment_by_tag lenv shuffle videos pools tag).2
        = Function.update pools tag (some l') := by
  obtain ⟨c, cs, hcc⟩ := List.exists_cons_of_ne_nil hc
  obtain ⟨vs, hvs⟩ := Option.isSome_iff_exists.mp hr
  rw [hcc] at hs
  have hpop : pop_resolve lenv pools tag (l' ++ [a]) =
      (.ok (a, vs), Function.update pools tag (some l')) := by
    unfold pop_resolve
    rw [List.getLast?_concat, List.dropLast_concat]
    simp [hvs]
  have hpool : pool_refill shuffle (c :: cs) (pools tag) = l' ++ [a] := by
    rcases hp with hp | hp <;> rw [hp, pool_refill, hs]
  unfold get_random_segment_by_tag
  rw [hcc]
  simp [hpool, hpop, Except.map]

/-- Shared: draining a stored bag of length `n` with `n` consecutive calls
returns the bag's elements from the back and leaves the bag stored
empty. -/
theorem select_run_drain (lenv : LibEnv)
    (shuffles : Nat → List Pair → List Pair) (videos : List CatalogVideo)
    (tag : String) (hc : tag_cache videos tag ≠ []) :
    ∀ (l : List Pair) (i : Nat) (pools : Pools),
      pools tag = some l →
      (∀ p ∈ l, (resolve_segment lenv p).isSome) →
      select_run lenv shuffles videos tag i l.length pools =
        (l.reverse.map .ok, Function.update pools tag (some [])) := by
  intro l
  induction l using List.reverseRecOn with
  | nil =>
    intro i pools hp _
    simp only [List.length_nil, select_run, List.reverse_nil, List.map_nil]
    rw [← hp, Function.update_eq_self]
  | append_singleton l' a ih =>
    intro i pools hp hres
    have hstep := select_step_stored lenv (shuffles i) videos pools tag l' a hc
      hp (hres a (by simp))
    have hlen : (l' ++ [a]).length = l'.length + 1 := by simp
    rw [hlen]
    simp only [select_run]
    rw [hstep.2]
    rw [ih (i + 1) (Function.update pools tag (some l'))
      (Function.update_same tag (some l') pools)
      (fun p hpmem => hres p (by simp [hpmem]))]
    simp [hstep.1, Function.update_idem, List.reverse_append]

/-- Shared: a run of `k + m` selections is the run of the first `k`
followed by the run of the next `m` from the reached pool state. -/
theorem select_run_split (lenv : LibEnv)
    (shuffles : Nat → List Pair → List Pair) (videos : List CatalogVideo)
    (tag : String) :
    ∀ (k m i : Nat) (pools : Pools),
      select_run lenv shuffles videos tag i (k + m) pools =
        ((select_run lenv shuffles videos tag i k pools).1 ++
            (select_run lenv shuffles videos tag (i + k) m
              (select_run lenv shuffles videos tag i k pools).2).1,
          (select_run lenv shuffles videos tag (i + k) m
            (select_run lenv shuffles videos tag i k pools).2).2) := by
  intro k
  induction k with
  | zero => intro m i pools; simp [select_run]
  | succ k ih =>
    intro m i pools
    have h1 : k + 1 + m = (k + m) + 1 := by omega
    have h2 : i + (k + 1) = (i + 1) + k := by omega
    rw [h1, h2]
    simp only [select_run]
    rw [ih m (i + 1)]
    simp

set_option maxHeartbeats 1000000 in
/-- C1: starting at a refill boundary (the tag's bag absent or empty —
which is where every cycle, including the first, begins), the `N`
consecutive selections of a tag with `N ≥ 1` well-formed segments return
exactly the pairs of the first shuffle, back to front — a permutation of
the tag's full pool, each `(video, segment)` pair exactly once — leaving
the bag stored empty; and the `(N+1)`th call starts a fresh cycle: it
reshuffles a copy of the tag's full pool with the next, independent
shuffle, returns that copy's last element and stores the rest. -/
theorem claim_C1 (lenv : LibEnv) (shuffles : Nat → List Pair → List Pair)
    (videos : List CatalogVideo) (pools : Pools) (tag : String)
    (hperm : ∀ i, (shuffles i (tag_cache videos tag)).Perm (tag_cache videos tag))
    (hN : tag_cache videos tag ≠ [])
    (hres : ∀ p ∈ tag_cache videos tag, (resolve_segment lenv p).isSome)
    (hfresh : pools tag = none ∨ pools tag = some []) :
    (select_run lenv shuffles videos tag 0 (tag_cache videos tag).length pools).1
        = (shuffles 0 (tag_cache videos tag)).reverse.map .ok ∧
    ((shuffles 0 (tag_cache videos tag)).reverse).Perm (tag_cache videos tag) ∧
    (select_run lenv shuffles videos tag 0 (tag_cache videos tag).length pools).2 tag
        = some [] ∧
    (select_run lenv shuffles videos tag 0 ((tag_cache videos tag).length + 1) pools).1
        = ((shuffles 0 (tag_cache videos tag)).reverse ++
            (shuffles (tag_cache videos tag).length
              (tag_cache videos tag)).reverse.take 1).map .ok ∧
    (select_run lenv shuffles videos tag 0 ((tag_cache videos tag).length + 1) pools).2 tag
        = some ((shuffles (tag_cache videos tag).length
            (tag_cache videos tag)).dropLast) := by
  have hmem : ∀ i p, p ∈ shuffles i (tag_cache videos tag) →
      (resolve_segment lenv p).isSome :=
    fun i p hp => hres p ((hperm i).mem_iff.mp hp)
  have hne : ∀ i, shuffles i (tag_cache videos tag) ≠ [] := by
    intro i h
    exact hN (List.Perm.eq_nil (h ▸ (hperm i).symm))
  obtain ⟨l0, a0, hs0⟩ :=
    (List.eq_nil_or_concat' (shuffles 0 (tag_cache videos tag))).resolve_left
      (hne 0)
  obtain ⟨lN, aN, hsN⟩ :=
    (List.eq_nil_or_concat' (shuffles (tag_cache videos tag).length
      (tag_cache videos tag))).resolve_left (hne (tag_cache videos tag).length)
  have hlen0 : (tag_cache videos tag).length = l0.length + 1 := by
    have h := (hperm 0).length_eq
    rw [hs0] at h
    simpa using h.symm
  have hstep0 := select_step_refill lenv (shuffles 0) videos pools tag l0 a0
    hN hfresh hs0 (hmem 0 a0 (by rw [hs0]; simp))
  have hdrain := select_run_drain lenv shuffles videos tag hN l0 1
    (Function.update pools tag (some l0)) (Function.update_same _ _ _)
    (fun p hp => hmem 0 p (by rw [hs0]; simp [hp]))
  have hrunN : select_run lenv shuffles videos tag 0
      (tag_cache videos tag).length pools =
      ((shuffles 0 (tag_cache videos tag)).reverse.map .ok,
        Function.update pools tag (some [])) := by
    rw [hlen0]
    simp only [select_run]
    rw [hstep0.2, hdrain, hs0]
    simp [hstep0.1, Function.update_idem, List.reverse_append]
  have hstepN := select_step_refill lenv
    (shuffles (tag_cache videos tag).length) videos
    (Function.update pools tag (some [])) tag lN aN hN
    (Or.inr (Function.update_same _ _ _)) hsN
    (hmem (tag_cache videos tag).length aN (by rw [hsN]; simp))
  have hrun1 : select_run lenv shuffles videos tag
      (tag_cache videos tag).length 1
      (Function.update pools tag (some [])) =
      ([.ok aN],
        Function.update (Function.update pools tag (some [])) tag (some lN)) := by
    simp only [select_run]
    rw [hstepN.2]
    simp [hstepN.1]
  have hsplit := select_run_split lenv shuffles videos tag
    (tag_cache videos tag).length 1 0 pools
  refine ⟨by rw [hrunN], (List.reverse_perm _).trans (hperm 0),
    by rw [hrunN]; exact Function.update_same _ _ _, ?_, ?_⟩
  · rw [hsplit, hrunN]
    simp only [Nat.zero_add]
    rw [hrun1, hs0, hsN]
    simp [List.reverse_append]
  · rw [hsplit, hrunN]
    simp only [Nat.zero_add]
    rw [hrun1, hsN]
    simp [Function.update_same, List.dropLast_concat]

/-- Witness for C1 on the one-segment `"intro"` catalog with identity
shuffles: the first call returns the single pair and empties the bag, and
the second call begins a fresh cycle over a full copy. -/
theorem claim_C1_witness :
    (select_run noClipEnv (fun _ => id) [introVideo] "intro" 0 1
        (fun _ => none)).1 = [.ok (introVideo, introSeg)] ∧
    (select_run noClipEnv (fun _ => id) [introVideo] "intro" 0 1
        (fun _ => none)).2 "intro" = some [] ∧
    (select_run noClipEnv (fun _ => id) [introVideo] "intro" 0 2
        (fun _ => none)).1 =
      [.ok (introVideo, introSeg), .ok (introVideo, introSeg)] := by
  have h := claim_C1 noClipEnv (fun _ => id) [introVideo] (fun _ => none)
    "intro" (fun _ => List.Perm.refl _) (by decide) (by decide) (Or.inl rfl)
  exact ⟨h.1, h.2.2.1, h.2.2.2.1⟩

end ObsEvents
